import Mathlib

/-!
Verification of the module resolution, caching and translation subsystem of
rustyscript: a shallow embedding of `src/module_loader.rs`,
`src/module_loader/import_provider.rs` and `src/traits.rs`, together with
theorems about the loader's documented behaviour.

Module specifiers are modelled as strings (the URL text), module sources as a
record of module type, code text and specifier.  Parts of the loader whose
implementation lives in `inner_loader.rs` / `cache_provider.rs` are modelled
from the specification; their doc comments say so explicitly.
-/

/-- Typed errors surfaced by the loader (spec section 7). -/
inductive LoaderError where
  | invalidUrl
  | permissionDenied
  | notFound
  | translationFailed
  | providerError (msg : String)
deriving Repr, DecidableEq

/-- `deno_core::RequestedModuleType`: the module type requested by an import.
`RequestedModuleType.None` is the placeholder value passed by the
backward-compatibility shim. -/
inductive RequestedModuleType where
  | noType
  | json
  | text
  | bytes
deriving Repr, DecidableEq

/-- `deno_core::ResolutionKind`. -/
inductive ResolutionKind where
  | mainModule
  | staticImport
  | dynamicImport
deriving Repr, DecidableEq

/-- `deno_core::ModuleType` (the cases the loader distinguishes). -/
inductive ModuleType where
  | javascript
  | json
  | other (name : String)
deriving Repr, DecidableEq

/-- `deno_core::ModuleSource`: module type, code text and the specifier it was
loaded for.  Code payloads are modelled as strings. -/
structure ModuleSource where
  moduleType : ModuleType
  code : String
  specifier : String
deriving Repr, DecidableEq

/-- A concrete implementation of the `ImportProvider` trait
(`src/module_loader/import_provider.rs`).  Each trait method is either
overridden by the implementor (`some f`, with `f` the override's behaviour as
a pure function) or left to the trait's default body (`none`).  Provider state
mutation is irrelevant to the dispatch claims, so hooks are pure here. -/
structure ImportProviderImpl where
  resolveHook :
    Option (String → String → ResolutionKind → Option (Except LoaderError String))
  importHook :
    Option (String → Option String → Bool → Option (Except LoaderError String))
  importWithTypeHook :
    Option (String → Option String → Bool → RequestedModuleType →
      Option (Except LoaderError String))
  postProcessHook :
    Option (String → ModuleSource → Except LoaderError ModuleSource)

/-- Dynamic dispatch of `ImportProvider::resolve`: the override when present,
otherwise the trait's default body, which returns `None`
(import_provider.rs lines 21-28). -/
def dispatchResolve (p : ImportProviderImpl) (specifier referrer : String)
    (kind : ResolutionKind) : Option (Except LoaderError String) :=
  match p.resolveHook with
  | some f => f specifier referrer kind
  | none => none

/-- Dynamic dispatch of `ImportProvider::post_process`: the override when
present, otherwise the trait's default body `Ok(source)`
(import_provider.rs lines 120-126). -/
def dispatchPostProcess (p : ImportProviderImpl) (specifier : String)
    (source : ModuleSource) : Except LoaderError ModuleSource :=
  match p.postProcessHook with
  | some f => f specifier source
  | none => Except.ok source

mutual

/-- Dynamic dispatch of `ImportProvider::import` (import_provider.rs lines
44-58): the override when present; the trait's default body calls
`self.import_with_type(specifier, referrer, is_dyn_import,
RequestedModuleType::None)`, which dispatches dynamically in turn.  The two
default bodies are mutually recursive, so dispatch is modelled with call-stack
fuel: `none` means the fuel ran out, i.e. the Rust call never returns (the
recursion overflows the stack); `some r` means the call returns `r`. -/
def dispatchImport (p : ImportProviderImpl) :
    Nat → String → Option String → Bool →
      Option (Option (Except LoaderError String))
  | 0, _, _, _ => none
  | fuel + 1, specifier, referrer, isDynImport =>
    match p.importHook with
    | some f => some (f specifier referrer isDynImport)
    | none =>
      dispatchImportWithType p fuel specifier referrer isDynImport
        RequestedModuleType.noType

/-- Dynamic dispatch of the deprecated `ImportProvider::import_with_type`
(import_provider.rs lines 93-102): the override when present; the default
body ignores the requested module type and calls `self.import(...)`. -/
def dispatchImportWithType (p : ImportProviderImpl) :
    Nat → String → Option String → Bool → RequestedModuleType →
      Option (Option (Except LoaderError String))
  | 0, _, _, _, _ => none
  | fuel + 1, specifier, referrer, isDynImport, t =>
    match p.importWithTypeHook with
    | some f => some (f specifier referrer isDynImport t)
    | none => dispatchImport p fuel specifier referrer isDynImport

end

/-- The Source Map Registry's contents: file name, original source text and
optional source-map bytes per entry, most recent entry first. -/
def SourceMapCache := List (String × String × Option (List Nat))

/-- Modelled from the spec: `InnerRustyLoader::get_source_map` lives in
`inner_loader.rs`, which is not among the repository's files.  Spec section
4.4: the registry is a pure key-value store keyed by logical file name, where
`add` overwrites any prior entry for the same key — so lookup returns the most
recently inserted entry for the name. -/
def getSourceMap (cache : SourceMapCache) (fileName : String) :
    Option (String × Option (List Nat)) :=
  match cache with
  | [] => none
  | (name, text, mapBytes) :: rest =>
    if name = fileName then some (text, mapBytes) else getSourceMap rest fileName

/-- Splitting a character list at every occurrence of a separator, keeping
empty pieces: the semantics of Rust's `str::split` with a `char` pattern
(`"".split` yields one empty piece, a trailing separator yields a trailing
empty piece). -/
def splitCharsOn (sep : Char) : List Char → List (List Char)
  | [] => [[]]
  | c :: cs =>
    match splitCharsOn sep cs with
    | [] => [[]]
    | first :: rest =>
      if c = sep then [] :: first :: rest else (c :: first) :: rest

/-- Rust's `text.split(sep)` collected into a list of strings. -/
def splitString (sep : Char) (text : String) : List String :=
  (splitCharsOn sep text.data).map String.mk

/-- `RustyLoader::get_source_mapped_source_line` (module_loader.rs lines
110-117): look the file up in the registry, split its original text on
newline, and return the requested line unless the number is out of range. -/
def getSourceMappedSourceLine (cache : SourceMapCache) (fileName : String)
    (lineNumber : Nat) : Option String :=
  match getSourceMap cache fileName with
  | none => none
  | some (text, _) =>
    let lines := splitString '\n' text
    if h : lineNumber < lines.length then some (lines.get ⟨lineNumber, h⟩)
    else none

/-- Claim C2: for a file name with a stored source-map entry,
`get_source_mapped_source_line` returns `none` when the line number is at or
past the number of lines of the stored original text, and exactly the nth
newline-separated line (0-indexed) when in range; for a file name with no
stored entry it returns `none`. -/
theorem c2_source_mapped_line_lookup (cache : SourceMapCache)
    (fileName : String) (lineNumber : Nat) :
    (getSourceMap cache fileName = none →
      getSourceMappedSourceLine cache fileName lineNumber = none) ∧
    ∀ text mapBytes, getSourceMap cache fileName = some (text, mapBytes) →
      ((splitString '\n' text).length ≤ lineNumber →
        getSourceMappedSourceLine cache fileName lineNumber = none) ∧
      ∀ h : lineNumber < (splitString '\n' text).length,
        getSourceMappedSourceLine cache fileName lineNumber =
          some ((splitString '\n' text).get ⟨lineNumber, h⟩) := by
  constructor
  · intro hnone
    unfold getSourceMappedSourceLine
    rw [hnone]
  · intro text mapBytes hsome
    constructor
    · intro hout
      unfold getSourceMappedSourceLine
      rw [hsome]
      simp only []
      rw [dif_neg (by omega)]
    · intro h
      unfold getSourceMappedSourceLine
      rw [hsome]
      simp only []
      rw [dif_pos h]

/-- Witness for claim C2 at a concrete registry: the file `mod.ts` stores the
two-line text `export const a = 1` / `export const b = 2`; line 1 is the
second line, line 2 is out of range, and the unknown file `other.ts` yields
nothing. -/
theorem c2_source_mapped_line_lookup_witness :
    getSourceMappedSourceLine
        [("mod.ts", "export const a = 1\nexport const b = 2", none)] "mod.ts"
        1 = some "export const b = 2" ∧
      getSourceMappedSourceLine
        [("mod.ts", "export const a = 1\nexport const b = 2", none)] "mod.ts"
        2 = none ∧
      getSourceMappedSourceLine
        [("mod.ts", "export const a = 1\nexport const b = 2", none)]
        "other.ts" 0 = none := by
  refine ⟨?_, ?_, ?_⟩
  · have h :=
      ((c2_source_mapped_line_lookup
        [("mod.ts", "export const a = 1\nexport const b = 2", none)] "mod.ts"
        1).2 "export const a = 1\nexport const b = 2" none (by rfl)).2
        (by decide)
    rw [h]
    rfl
  · exact ((c2_source_mapped_line_lookup
      [("mod.ts", "export const a = 1\nexport const b = 2", none)] "mod.ts"
      2).2 "export const a = 1\nexport const b = 2" none (by rfl)).1
      (by decide)
  · exact (c2_source_mapped_line_lookup
      [("mod.ts", "export const a = 1\nexport const b = 2", none)] "other.ts"
      0).1 (by rfl)

/-- Claim C3: for an `ImportProvider` implementation that overrides only the
legacy `import_with_type` method, the new `import` entry point returns exactly
what the overridden `import_with_type` returns for the same specifier,
referrer and dynamic-import flag, called with the placeholder module type
`RequestedModuleType::None`.  `n + 2` is any call-stack fuel sufficient for
the one forwarding step. -/
theorem c3_legacy_provider_forwarding
    (rh : Option (String → String → ResolutionKind →
      Option (Except LoaderError String)))
    (ph : Option (String → ModuleSource → Except LoaderError ModuleSource))
    (f : String → Option String → Bool → RequestedModuleType →
      Option (Except LoaderError String))
    (n : Nat) (specifier : String) (referrer : Option String)
    (isDynImport : Bool) :
    dispatchImport ⟨rh, none, some f, ph⟩ (n + 2) specifier referrer
        isDynImport =
      some (f specifier referrer isDynImport RequestedModuleType.noType) := by
  rfl

/-- Claim C10: for an `ImportProvider` implementation that overrides neither
`import` nor `import_with_type`, dispatch of either method never returns, at
any call-stack fuel: the two default bodies call each other forever, so the
Rust call overflows the stack instead of terminating with `None`. -/
theorem c10_default_import_dispatch_diverges
    (rh : Option (String → String → ResolutionKind →
      Option (Except LoaderError String)))
    (ph : Option (String → ModuleSource → Except LoaderError ModuleSource))
    (specifier : String) (referrer : Option String) (isDynImport : Bool) :
    ∀ (n : Nat) (t : RequestedModuleType),
      dispatchImport ⟨rh, none, none, ph⟩ n specifier referrer isDynImport =
          none ∧
        dispatchImportWithType ⟨rh, none, none, ph⟩ n specifier referrer
          isDynImport t = none := by
  intro n
  induction n with
  | zero => exact fun t => ⟨rfl, rfl⟩
  | succ n ih =>
    intro t
    exact ⟨(ih RequestedModuleType.noType).2, (ih t).1⟩

/-- Claim C9: an `ImportProvider` implementation that does not override
`post_process` returns `Ok` of the source unchanged: the default
post-process hook is the identity. -/
theorem c9_post_process_default_identity
    (rh : Option (String → String → ResolutionKind →
      Option (Except LoaderError String)))
    (ih : Option (String → Option String → Bool →
      Option (Except LoaderError String)))
    (iwth : Option (String → Option String → Bool → RequestedModuleType →
      Option (Except LoaderError String)))
    (specifier : String) (source : ModuleSource) :
    dispatchPostProcess ⟨rh, ih, iwth, none⟩ specifier source =
      Except.ok source := by
  rfl

/-- A file-system path as `resolve_path` manipulates it: whether it is
absolute, plus its components in order. -/
structure FsPath where
  absolute : Bool
  components : List String
deriving Repr, DecidableEq

/-- `std::path::Path::join` (traits.rs line 19, `current_dir.join(path_str)`):
joining an absolute path replaces the base; joining a relative path appends
its components to the base's. -/
def pathJoin (base p : FsPath) : FsPath :=
  if p.absolute then p
  else { absolute := base.absolute, components := base.components ++ p.components }

/-- One step of `deno_core::normalize_path` (traits.rs line 20): a `.`
component is skipped, a `..` component pops the last kept component, any other
component is kept. -/
def normalizeStep (acc : List String) (c : String) : List String :=
  if c = "." then acc
  else if c = ".." then acc.dropLast
  else acc ++ [c]

/-- `deno_core::normalize_path`: lexically collapse `.` and `..` components,
leaving the absolute flag unchanged. -/
def normalizePath (p : FsPath) : FsPath :=
  { p with components := p.components.foldl normalizeStep [] }

/-- `url::Url::from_file_path` (traits.rs line 21): an absolute path converts
to a `file://` URL; a relative path cannot be expressed as a file URL and the
conversion fails. -/
def urlFromFilePath (p : FsPath) : Option String :=
  if p.absolute then
    some (String.append "file:///" (String.intercalate "/" p.components))
  else none

/-- `resolve_path` (traits.rs lines 15-26): join the path onto the current
directory, normalize the result, and convert it to a file URL; when the
conversion fails, return the `InvalidUrl` resolution error. -/
def resolve_path (pathStr : FsPath) (currentDir : FsPath) :
    Except LoaderError String :=
  let path := pathJoin currentDir pathStr
  let path := normalizePath path
  match urlFromFilePath path with
  | some url => Except.ok url
  | none => Except.error LoaderError.invalidUrl

/-- Claim C8: `resolve_path` joins the path onto the base directory,
normalizes the result, and returns the canonical absolute file locator of the
joined, normalized path; it returns the `InvalidUrl` error exactly when that
path cannot be converted to a file URL. -/
theorem c8_resolve_path_join_normalize (pathStr currentDir : FsPath) :
    (∀ url, urlFromFilePath (normalizePath (pathJoin currentDir pathStr)) =
        some url →
      resolve_path pathStr currentDir = Except.ok url) ∧
    (resolve_path pathStr currentDir = Except.error LoaderError.invalidUrl ↔
      urlFromFilePath (normalizePath (pathJoin currentDir pathStr)) = none) := by
  constructor
  · intro url hsome
    unfold resolve_path
    simp only [hsome]
  · unfold resolve_path
    cases hurl : urlFromFilePath (normalizePath (pathJoin currentDir pathStr))
      with
    | none => simp [hurl]
    | some url => simp [hurl]

/-- Witness for claim C8: resolving the relative path `../lib/./mod.ts`
against the absolute base `/home/user` yields `file:///home/lib/mod.ts`, and
resolving a relative path against a relative base fails with `InvalidUrl`. -/
theorem c8_resolve_path_join_normalize_witness :
    resolve_path ⟨false, ["..", "lib", ".", "mod.ts"]⟩
        ⟨true, ["home", "user"]⟩ = Except.ok "file:///home/lib/mod.ts" ∧
      resolve_path ⟨false, ["mod.ts"]⟩ ⟨false, ["home"]⟩ =
        Except.error LoaderError.invalidUrl := by
  constructor
  · exact (c8_resolve_path_join_normalize ⟨false, ["..", "lib", ".", "mod.ts"]⟩
      ⟨true, ["home", "user"]⟩).1 "file:///home/lib/mod.ts" (by rfl)
  · exact (c8_resolve_path_join_normalize ⟨false, ["mod.ts"]⟩
      ⟨false, ["home"]⟩).2.mpr (by rfl)

/-- A raw specifier as the engine hands it to `resolve`: either text that
parses as an absolute locator, or a relative path (spec section 4.1). -/
inductive RawSpecifier where
  | absoluteUrl (url : String)
  | relativePath (path : FsPath)
deriving Repr, DecidableEq

/-- The raw specifier's text, as the Import Provider's resolve hook sees it. -/
def RawSpecifier.text : RawSpecifier → String
  | .absoluteUrl url => url
  | .relativePath p => String.intercalate "/" p.components

/-- Modelled from the spec: the default resolution path (spec section 4.1;
its code is in `inner_loader.rs`, which is not among the repository's files).
Text that parses as an absolute locator is canonicalized and returned;
otherwise the text is treated as a path relative to the loader's current
working directory and resolved through `resolve_path`. -/
def defaultResolution (cwd : FsPath) : RawSpecifier → Except LoaderError String
  | .absoluteUrl url => Except.ok url
  | .relativePath p => resolve_path p cwd

/-- Modelled from the spec: `InnerRustyLoader::resolve` (spec section 4.2;
`inner_loader.rs` is not among the repository's files).  The loader delegates
first to the Import Provider when one is installed: a `Some` decision from its
resolve hook is authoritative, and only on `None` does the call fall through
to default resolution against the current working directory.  The returned
flag records whether the default resolution path ran during the call. -/
def loaderResolve (provider : Option ImportProviderImpl) (cwd : FsPath)
    (raw : RawSpecifier) (referrer : String) (kind : ResolutionKind) :
    Except LoaderError String × Bool :=
  let hookDecision :=
    match provider with
    | some p => dispatchResolve p raw.text referrer kind
    | none => none
  match hookDecision with
  | some (Except.ok resolved) => (Except.ok resolved, false)
  | some (Except.error e) => (Except.error e, false)
  | none => (defaultResolution cwd raw, true)

/-- Claim C4: with an Import Provider installed, a `Some(Ok(x))` from its
resolve hook makes the loader return `Ok(x)` without ever invoking the default
resolution path; a `Some(Err(e))` makes it return that error, again without
default resolution; only on `None` does the call fall through to default
resolution against the current working directory. -/
theorem c4_import_provider_resolve_precedence (p : ImportProviderImpl)
    (cwd : FsPath) (raw : RawSpecifier) (referrer : String)
    (kind : ResolutionKind) :
    (∀ x, dispatchResolve p raw.text referrer kind = some (Except.ok x) →
      loaderResolve (some p) cwd raw referrer kind = (Except.ok x, false)) ∧
    (∀ e, dispatchResolve p raw.text referrer kind = some (Except.error e) →
      loaderResolve (some p) cwd raw referrer kind = (Except.error e, false)) ∧
    (dispatchResolve p raw.text referrer kind = none →
      loaderResolve (some p) cwd raw referrer kind =
        (defaultResolution cwd raw, true)) := by
  refine ⟨?_, ?_, ?_⟩
  · intro x hok
    unfold loaderResolve
    simp only [hok]
  · intro e herr
    unfold loaderResolve
    simp only [herr]
  · intro hnone
    unfold loaderResolve
    simp only [hnone]

/-- A resolve hook like the in-repo `TestImportProvider`'s: it decides
specifiers of the `test` scheme and defers on everything else. -/
def testResolveHook (specifier : String) (_referrer : String)
    (_kind : ResolutionKind) : Option (Except LoaderError String) :=
  if specifier = "test://anything" then some (Except.ok "test://1") else none

/-- Witness for claim C4 at a concrete provider: the hook decides
`test://anything` as `test://1`, which the loader returns with the default
path not run; the hook defers on `other://x`, and the loader falls through to
default resolution. -/
theorem c4_import_provider_resolve_precedence_witness :
    loaderResolve (some ⟨some testResolveHook, none, none, none⟩)
        ⟨true, ["home"]⟩ (RawSpecifier.absoluteUrl "test://anything") ""
        ResolutionKind.staticImport = (Except.ok "test://1", false) ∧
      loaderResolve (some ⟨some testResolveHook, none, none, none⟩)
        ⟨true, ["home"]⟩ (RawSpecifier.absoluteUrl "other://x") ""
        ResolutionKind.staticImport = (Except.ok "other://x", true) := by
  constructor
  · exact (c4_import_provider_resolve_precedence
      ⟨some testResolveHook, none, none, none⟩ ⟨true, ["home"]⟩
      (RawSpecifier.absoluteUrl "test://anything") ""
      ResolutionKind.staticImport).1 "test://1" (by rfl)
  · exact (c4_import_provider_resolve_precedence
      ⟨some testResolveHook, none, none, none⟩ ⟨true, ["home"]⟩
      (RawSpecifier.absoluteUrl "other://x") ""
      ResolutionKind.staticImport).2.2 (by rfl)

/-- Association-list lookup, first match wins. -/
def assocLookup {α : Type} : List (String × α) → String → Option α
  | [], _ => none
  | (key, value) :: rest, wanted =>
    if key = wanted then some value else assocLookup rest wanted

/-- A concrete `ModuleCacheProvider` implementation, holding its stored
sources keyed by specifier (most recent store first). -/
structure CacheProviderImpl where
  entries : List (String × ModuleSource)
deriving Repr, DecidableEq

/-- Modelled from the spec: `ModuleCacheProvider::get` together with
`ClonableSource::clone` (`cache_provider.rs` is not among the repository's
files).  Spec section 4.5: `get` must return a source independent of the one
stored — a deep-enough clone — and the in-repo test's `get` clones the stored
source re-keyed by the requested specifier, so the clone's code and module
type are those stored. -/
def cacheGet (cache : CacheProviderImpl) (specifier : String) :
    Option ModuleSource :=
  match assocLookup cache.entries specifier with
  | some stored => some { stored with specifier := specifier }
  | none => none

/-- Modelled from the spec: `ModuleCacheProvider::set` stores the source under
the specifier, overwriting any prior entry for it. -/
def cacheSet (cache : CacheProviderImpl) (specifier : String)
    (source : ModuleSource) : CacheProviderImpl :=
  ⟨(specifier, source) :: cache.entries⟩

/-- `deno_core::ModuleLoadOptions` as `load` receives them. -/
structure ModuleLoadOptions where
  isDynImport : Bool
  isSynchronous : Bool
  requestedModuleType : RequestedModuleType
deriving Repr, DecidableEq

/-- `deno_core::ModuleLoadResponse`: an immediate (synchronous) result, or a
deferred one modelled by the result its future eventually yields. -/
inductive ModuleLoadResponse where
  | sync (result : Except LoaderError ModuleSource)
  | deferred (result : Except LoaderError ModuleSource)
deriving Repr

/-- Instrumentation of one `load` call: how many times the Cache Provider's
get and set and the Import Provider's hooks (fetch and post-process) ran. -/
structure LoadEffects where
  cacheGets : Nat
  cacheSets : Nat
  providerCalls : Nat
deriving Repr, DecidableEq

/-- The provider fetch consultation of the load path (spec sections 4.2 step 3
and 4.5): the `import` override when present, else the legacy
`import_with_type` override called with the placeholder module type, else
defer.  This is `dispatchImport` restricted to providers whose dispatch
terminates (at least one fetch method overridden the shim's one forwarding
step resolves; see `c10_default_import_dispatch_diverges` for the other
case). -/
def providerImport (p : ImportProviderImpl) (specifier : String)
    (referrer : Option String) (isDynImport : Bool) :
    Option (Except LoaderError String) :=
  match p.importHook with
  | some f => f specifier referrer isDynImport
  | none =>
    match p.importWithTypeHook with
    | some f => f specifier referrer isDynImport RequestedModuleType.noType
    | none => none

/-- The fetch-and-process tail of the load algorithm, steps 3 to 7 of spec
section 4.2: consult the Import Provider's fetch hook, fall back to the
default fetch, translate legacy-syntax text, run the post-process hook, and
write the result back to the cache.  Returns the result, the updated cache
and the number of Import Provider hook invocations. -/
def fetchAndProcess (cache : Option CacheProviderImpl)
    (provider : Option ImportProviderImpl) (classifyLegacy : String → Bool)
    (rewriteLegacy : String → String → Except LoaderError String)
    (defaultFetch : String → Except LoaderError String) (specifier : String)
    (referrer : Option String) (isDynImport : Bool) :
    Except LoaderError ModuleSource × Option CacheProviderImpl × Nat × Nat :=
  let fetched :=
    match provider with
    | some p => (providerImport p specifier referrer isDynImport, 1)
    | none => (none, 0)
  let text :=
    match fetched.1 with
    | some r => r
    | none => defaultFetch specifier
  match text with
  | Except.error e => (Except.error e, cache, 0, fetched.2)
  | Except.ok raw =>
    let translated :=
      if classifyLegacy raw then rewriteLegacy specifier raw
      else Except.ok raw
    match translated with
    | Except.error e => (Except.error e, cache, 0, fetched.2)
    | Except.ok code =>
      let source : ModuleSource := ⟨ModuleType.javascript, code, specifier⟩
      let processed :=
        match provider with
        | some p => (dispatchPostProcess p specifier source, fetched.2 + 1)
        | none => (Except.ok source, fetched.2)
      match processed.1 with
      | Except.error e => (Except.error e, cache, 0, processed.2)
      | Except.ok final =>
        match cache with
        | some c => (Except.ok final, some (cacheSet c specifier final), 1,
            processed.2)
        | none => (Except.ok final, none, 0, processed.2)

/-- Modelled from the spec: `InnerRustyLoader::load` (spec section 4.2;
`inner_loader.rs` is not among the repository's files).  In order: (1) a
specifier off the allow-list fails with `PermissionDenied` when allow-listing
is enforced, before any provider runs; (2) a Cache Provider hit returns the
cached source immediately with no write-back (the in-repo `test_loader` shows
the hit is a synchronous response even for an asynchronous caller); then the
fetch tail of steps 3 to 7 runs, whose response is immediate for synchronous
callers and deferred otherwise.  Returns the response, the updated cache and
the call's instrumentation. -/
def loaderLoad (whitelist : List String) (enforceAllowlist : Bool)
    (cache : Option CacheProviderImpl) (provider : Option ImportProviderImpl)
    (classifyLegacy : String → Bool)
    (rewriteLegacy : String → String → Except LoaderError String)
    (defaultFetch : String → Except LoaderError String) (specifier : String)
    (referrer : Option String) (options : ModuleLoadOptions) :
    ModuleLoadResponse × Option CacheProviderImpl × LoadEffects :=
  if enforceAllowlist && !(whitelist.contains specifier) then
    (ModuleLoadResponse.sync (Except.error LoaderError.permissionDenied),
      cache, ⟨0, 0, 0⟩)
  else
    let hit :=
      match cache with
      | some c => (cacheGet c specifier, 1)
      | none => (none, 0)
    match hit.1 with
    | some source => (ModuleLoadResponse.sync (Except.ok source), cache,
        ⟨hit.2, 0, 0⟩)
    | none =>
      let tail := fetchAndProcess cache provider classifyLegacy rewriteLegacy
        defaultFetch specifier referrer options.isDynImport
      let response :=
        if options.isSynchronous then ModuleLoadResponse.sync tail.1
        else ModuleLoadResponse.deferred tail.1
      (response, tail.2.1, ⟨hit.2, tail.2.2.1, tail.2.2.2⟩)

/-- Claim C5: with allow-list enforcement enabled and the specifier not on
the whitelist, `load` returns the `PermissionDenied` error, and neither the
Cache Provider's get or set nor any Import Provider hook is invoked during
the call (all instrumentation counters are zero). -/
theorem c5_allowlist_denies_before_providers (whitelist : List String)
    (cache : Option CacheProviderImpl) (provider : Option ImportProviderImpl)
    (classifyLegacy : String → Bool)
    (rewriteLegacy : String → String → Except LoaderError String)
    (defaultFetch : String → Except LoaderError String) (specifier : String)
    (referrer : Option String) (options : ModuleLoadOptions)
    (hoff : whitelist.contains specifier = false) :
    loaderLoad whitelist true cache provider classifyLegacy rewriteLegacy
        defaultFetch specifier referrer options =
      (ModuleLoadResponse.sync (Except.error LoaderError.permissionDenied),
        cache, ⟨0, 0, 0⟩) := by
  unfold loaderLoad
  rw [hoff]
  rfl

/-- Witness for claim C5: a pre-populated cache and an installed provider are
both left untouched when `file:///b.ts` is not whitelisted. -/
theorem c5_allowlist_denies_before_providers_witness :
    loaderLoad [] true
        (some ⟨[("file:///a.ts",
          ⟨ModuleType.javascript, "export const a = 1", "file:///a.ts"⟩)]⟩)
        (some ⟨some testResolveHook, none, none, none⟩) (fun _ => false)
        (fun _ text => Except.ok text)
        (fun _ => Except.error LoaderError.notFound) "file:///b.ts" none
        ⟨false, false, RequestedModuleType.noType⟩ =
      (ModuleLoadResponse.sync (Except.error LoaderError.permissionDenied),
        some ⟨[("file:///a.ts",
          ⟨ModuleType.javascript, "export const a = 1", "file:///a.ts"⟩)]⟩,
        ⟨0, 0, 0⟩) :=
  c5_allowlist_denies_before_providers [] _ _ _ _ _ "file:///b.ts" none
    ⟨false, false, RequestedModuleType.noType⟩ (by rfl)

/-- Claim C6: when the Cache Provider holds a source for the specifier and
the allow-list gate passes, `load` hits the cache and returns a synchronous
(immediate) response whose source is the stored one cloned onto the requested
specifier — its code byte-identical to what was stored — with one cache get,
no cache write-back and zero Import Provider hook calls. -/
theorem c6_cache_hit_round_trip (whitelist : List String)
    (enforceAllowlist : Bool) (c : CacheProviderImpl)
    (provider : Option ImportProviderImpl) (classifyLegacy : String → Bool)
    (rewriteLegacy : String → String → Except LoaderError String)
    (defaultFetch : String → Except LoaderError String) (specifier : String)
    (referrer : Option String) (options : ModuleLoadOptions)
    (stored : ModuleSource)
    (hperm : (enforceAllowlist && !(whitelist.contains specifier)) = false)
    (hhit : assocLookup c.entries specifier = some stored) :
    loaderLoad whitelist enforceAllowlist (some c) provider classifyLegacy
        rewriteLegacy defaultFetch specifier referrer options =
      (ModuleLoadResponse.sync
          (Except.ok ⟨stored.moduleType, stored.code, specifier⟩), some c,
        ⟨1, 0, 0⟩) ∧
      (⟨stored.moduleType, stored.code, specifier⟩ : ModuleSource).code =
        stored.code := by
  constructor
  · have h1 : cacheGet c specifier =
        some ⟨stored.moduleType, stored.code, specifier⟩ := by
      unfold cacheGet
      rw [hhit]
    unfold loaderLoad
    rw [hperm]
    simp only [h1]
    rfl
  · rfl

/-- Witness for claim C6, the end-to-end scenario of the in-repo
`test_loader`: the cache pre-populated with `file:///test.ts` mapped to
`console.log('Hello, World!')` answers a load of that specifier with a
synchronous response carrying exactly the stored text, with zero Import
Provider hook calls although a provider is installed. -/
theorem c6_cache_hit_round_trip_witness :
    loaderLoad [] false
        (some ⟨[("file:///test.ts",
          ⟨ModuleType.javascript, "console.log('Hello, World!')",
            "file:///test.ts"⟩)]⟩)
        (some ⟨some testResolveHook, none, none, none⟩) (fun _ => false)
        (fun _ text => Except.ok text)
        (fun _ => Except.error LoaderError.notFound) "file:///test.ts" none
        ⟨false, false, RequestedModuleType.noType⟩ =
      (ModuleLoadResponse.sync
          (Except.ok ⟨ModuleType.javascript, "console.log('Hello, World!')",
            "file:///test.ts"⟩),
        some ⟨[("file:///test.ts",
          ⟨ModuleType.javascript, "console.log('Hello, World!')",
            "file:///test.ts"⟩)]⟩, ⟨1, 0, 0⟩) :=
  (c6_cache_hit_round_trip [] false
    ⟨[("file:///test.ts",
      ⟨ModuleType.javascript, "console.log('Hello, World!')",
        "file:///test.ts"⟩)]⟩
    (some ⟨some testResolveHook, none, none, none⟩) (fun _ => false)
    (fun _ text => Except.ok text) (fun _ => Except.error LoaderError.notFound)
    "file:///test.ts" none ⟨false, false, RequestedModuleType.noType⟩
    ⟨ModuleType.javascript, "console.log('Hello, World!')", "file:///test.ts"⟩
    (by rfl) (by rfl)).1

/-- Modelled from the spec: `InnerRustyLoader::translate_cjs` (spec section
4.3; `inner_loader.rs` is not among the repository's files).  Classification
decides whether the text is in the legacy module syntax; text that is not
legacy is returned unchanged.  Legacy text is rewritten — reusing a
translation already cached for the specifier instead of recomputing it — and
the result is recorded in the per-specifier translation cache.
`classifyLegacy` and `rewriteLegacy` stand for the static analysis and the
rewrite, which the spec leaves to the translator. -/
def translate_cjs (classifyLegacy : String → Bool)
    (rewriteLegacy : String → String → Except LoaderError String)
    (translationCache : List (String × String))
    (specifier source : String) :
    Except LoaderError String × List (String × String) :=
  if classifyLegacy source then
    match assocLookup translationCache specifier with
    | some cached => (Except.ok cached, translationCache)
    | none =>
      match rewriteLegacy specifier source with
      | Except.ok rewritten =>
        (Except.ok rewritten, (specifier, rewritten) :: translationCache)
      | Except.error e => (Except.error e, translationCache)
  else (Except.ok source, translationCache)

/-- Claim C7: source text classified as already being in ESM (non-legacy)
module syntax passes through the CJS-to-ESM translator unchanged, whatever
the rewrite function, the translation cache and the specifier: the translator
is idempotent on already-ESM text. -/
theorem c7_translate_identity_on_esm (classifyLegacy : String → Bool)
    (rewriteLegacy : String → String → Except LoaderError String)
    (translationCache : List (String × String)) (specifier source : String)
    (hesm : classifyLegacy source = false) :
    translate_cjs classifyLegacy rewriteLegacy translationCache specifier
        source = (Except.ok source, translationCache) := by
  unfold translate_cjs
  rw [hesm]
  rfl

/-- A classifier in the spirit of the translator's static analysis: text
whose first word is `module.exports` counts as legacy syntax. -/
def sampleClassifier (source : String) : Bool :=
  match splitString ' ' source with
  | first :: _ => first = "module.exports"
  | [] => false

/-- Witness for claim C7: already-ESM text passes through a concrete
translator unchanged, cache and all. -/
theorem c7_translate_identity_on_esm_witness :
    translate_cjs sampleClassifier
        (fun specifier _ => Except.error (LoaderError.providerError specifier))
        [("file:///other.ts", "export {}")] "file:///mod.ts"
        "export const x = 1" =
      (Except.ok "export const x = 1", [("file:///other.ts", "export {}")]) :=
  c7_translate_identity_on_esm sampleClassifier
    (fun specifier _ => Except.error (LoaderError.providerError specifier))
    [("file:///other.ts", "export {}")] "file:///mod.ts"
    "export const x = 1" (by rfl)

/-- The run-time borrow flag of the `Rc<RefCell<InnerRustyLoader>>` holding
the shared loader state (module_loader.rs lines 23-25): how many shared
borrows and whether an exclusive borrow is active on the call stack. -/
structure BorrowFlag where
  shared : Nat
  exclusive : Bool
deriving Repr, DecidableEq

/-- The flag with no borrow active. -/
def BorrowFlag.free : BorrowFlag := ⟨0, false⟩

/-- `RefCell::borrow` as `RustyLoader::inner` calls it (module_loader.rs lines
42-44): panics — modelled as `none` — exactly when an exclusive borrow is
active. -/
def tryBorrow (b : BorrowFlag) : Option BorrowFlag :=
  if b.exclusive then none else some { b with shared := b.shared + 1 }

/-- `RefCell::borrow_mut` as `RustyLoader::inner_mut` calls it
(module_loader.rs lines 46-48): panics — modelled as `none` — exactly when
any borrow, shared or exclusive, is active. -/
def tryBorrowMut (b : BorrowFlag) : Option BorrowFlag :=
  if b.exclusive || decide (0 < b.shared) then none
  else some { b with exclusive := true }

/-- Dropping the `RefMut` guard at the end of its scope. -/
def releaseMut (b : BorrowFlag) : BorrowFlag := { b with exclusive := false }

/-- Modelled from the spec: the borrow trace of one `load` call against the
shared loader state (`InnerRustyLoader::load` lives in `inner_loader.rs`,
which is not among the repository's files; `RustyLoader::load` hands it the
`Rc` itself, taking no borrow).  Per spec sections 5 and 9 every access is a
short-lived exclusive section — allow-list check, cache lookup, write-back —
released before any call into a provider callback, so no borrow is held while
`callback` (the provider hook, which may re-enter the loader) runs.  `none`
means some borrow acquisition panicked. -/
def loadBorrowSteps (callback : BorrowFlag → Option BorrowFlag)
    (b0 : BorrowFlag) : Option BorrowFlag :=
  match tryBorrowMut b0 with
  | none => none
  | some b1 =>
    let b2 := releaseMut b1
    match tryBorrowMut b2 with
    | none => none
    | some b3 =>
      let b4 := releaseMut b3
      match callback b4 with
      | none => none
      | some b5 =>
        match tryBorrowMut b5 with
        | none => none
        | some b6 => some (releaseMut b6)

/-- The borrow trace of a `load` whose provider callback re-enters the loader
with `nested` further loads, each nested inside the previous one's callback:
the claim's scenario of a load issued from within a provider callback invoked
during the processing of another load, iterated to any depth. -/
def loadBorrowTrace : Nat → BorrowFlag → Option BorrowFlag
  | 0 => loadBorrowSteps some
  | nested + 1 => loadBorrowSteps (loadBorrowTrace nested)

/-- One load's borrow steps traverse a free flag and leave it free, as long
as the callback they bracket does the same. -/
theorem loadBorrowSteps_free (callback : BorrowFlag → Option BorrowFlag)
    (h : callback BorrowFlag.free = some BorrowFlag.free) :
    loadBorrowSteps callback BorrowFlag.free = some BorrowFlag.free := by
  unfold loadBorrowSteps
  simp [tryBorrowMut, releaseMut, BorrowFlag.free] at h ⊢
  rw [h]
  rfl

/-- Claim C1: at every re-entrance depth, a load whose provider callbacks
issue further loads on the same loader instance completes without any borrow
acquisition panicking: every exclusive borrow of the shared loader state is
released before a callback runs, so the nested load finds the state free,
and after the whole trace the state is free again — both loads run to
completion rather than aborting. -/
theorem c1_reentrant_load_never_panics (nested : Nat) :
    loadBorrowTrace nested BorrowFlag.free = some BorrowFlag.free := by
  induction nested with
  | zero => exact loadBorrowSteps_free some rfl
  | succ nested ih => exact loadBorrowSteps_free (loadBorrowTrace nested) ih
